import Mathlib

/-!
# Verification of `@shgysk8zer0/squish` (squish.js) against its specification

The library dispatches gzip / deflate / deflate-raw compression over
heterogeneous inputs (`toStream`), pipes them through the platform codec
(`CompressionStream` / `DecompressionStream`), and materializes the result
(`fromStream`).  We embed the wrapper layer (`toStream`, `fromStream`,
`_transform`, `compress`, `decompress`, the stream forms and the named
format helpers) directly from `squish.js`.  The codec itself is a platform
primitive that is not part of the repository's sources, so it is modelled
from the specification's §4.2 description of the DEFLATE-family framing:
stored-block bodies, a gzip header plus CRC-32/length trailer, a zlib
header plus Adler-32 trailer, and raw deflate with neither.

Bytes are `Nat`s (< 256 where produced by the code); streams are lists of
chunks, each chunk a `List Nat`.
-/

deriving instance DecidableEq for Except

namespace Squish

/-! ## Spec-modelled DEFLATE-family codec (§4.2) -/

/-- The three formats accepted by `CompressionStream`/`DecompressionStream`. -/
inductive Fmt
  | gzip
  | deflate
  | deflateRaw
deriving DecidableEq, Repr

/-- Modelled from the spec: CRC-32 bit-step with the reflected polynomial
`0xEDB88320` (§4.2 "CRC-32 uses the standard polynomial 0xEDB88320"). -/
def crcRound (c : Nat) : Nat :=
  if c % 2 = 1 then Nat.xor (c / 2) 0xEDB88320 else c / 2

/-- Modelled from the spec: fold one byte into a running CRC-32. -/
def crcByte (c b : Nat) : Nat :=
  crcRound^[8] (Nat.xor c (b % 256))

/-- Modelled from the spec: CRC-32 of a byte sequence, computed in stream
order (§4.2 "all checksums computed over the full byte sequence in stream
order"). -/
def crc32 (bs : List Nat) : Nat :=
  Nat.xor (bs.foldl crcByte 0xFFFFFFFF) 0xFFFFFFFF

/-- Modelled from the spec: Adler-32 of a byte sequence, with modulus 65521
(§4.2 "Adler-32 uses modulus 65521"). -/
def adler32 (bs : List Nat) : Nat :=
  let p := bs.foldl (fun st b => ((st.1 + b % 256) % 65521, (st.2 + (st.1 + b % 256) % 65521) % 65521)) ((1, 0) : Nat × Nat)
  p.2 * 65536 + p.1

/-- Little-endian 4-byte rendering of a 32-bit value (gzip trailer fields). -/
def le32 (n : Nat) : List Nat :=
  [n % 256, n / 256 % 256, n / 65536 % 256, n / 16777216 % 256]

/-- Big-endian 4-byte rendering of a 32-bit value (zlib Adler-32 trailer). -/
def be32 (n : Nat) : List Nat :=
  [n / 16777216 % 256, n / 65536 % 256, n / 256 % 256, n % 256]

/-- Modelled from the spec: the body encoder of the codec engine, emitting
DEFLATE stored blocks — a final flag and a 16-bit little-endian length
followed by the literal bytes, chunked at 65535 bytes (§4.2's engine, taken
at the stored-block level of abstraction).  `fuel` bounds the recursion and
is in practice at least the number of blocks. -/
def encodeAux : Nat → List Nat → List Nat
  | 0, b => 1 :: b.length % 256 :: b.length / 256 :: b
  | fuel + 1, b =>
    if b.length ≤ 65535 then
      1 :: b.length % 256 :: b.length / 256 :: b
    else
      0 :: 255 :: 255 :: (b.take 65535 ++ encodeAux fuel (b.drop 65535))

/-- Modelled from the spec: the body decoder, parsing stored blocks and
returning the decoded bytes together with the unconsumed tail (the trailer
bytes).  Returns `none` on a malformed body. -/
def decodeAux : Nat → List Nat → Option (List Nat × List Nat)
  | fuel + 1, fin :: l0 :: l1 :: rest =>
    let len := l0 + 256 * l1
    if fin = 1 then
      if len ≤ rest.length then some (rest.take len, rest.drop len) else none
    else if len = 65535 ∧ 65535 ≤ rest.length then
      match decodeAux fuel (rest.drop 65535) with
      | some (tl, left) => some (rest.take 65535 ++ tl, left)
      | none => none
    else none
  | _, _ => none

/-- Body encoder with sufficient fuel. -/
def encodeBlocks (b : List Nat) : List Nat :=
  encodeAux (b.length + 1) b

/-- Body decoder with sufficient fuel. -/
def decodeBlocks (l : List Nat) : Option (List Nat × List Nat) :=
  decodeAux (l.length + 1) l

/-- Errors surfaced by the library, mirroring both the `TypeError`s thrown
in `squish.js` and the spec's §7 taxonomy. -/
inductive JsError
  /-- `TypeError: Invalid input type: ${typeof input}.` (`toStream`, non-object
  non-string input); the spec's `InvalidInputType`. -/
  | invalidInputType (typeofName : String)
  /-- `TypeError: Unsupported input type.` (`toStream`, unrecognized object);
  the spec's `UnsupportedInput`. -/
  | unsupportedInput
  /-- `TypeError: Unsupported output: "..."` (`fromStream` default branch);
  the spec's `UnsupportedOutput`. -/
  | unsupportedOutput (selector : String)
  /-- `TypeError` thrown by the `CompressionStream`/`DecompressionStream`
  constructor on an unknown format string. -/
  | unsupportedFormat (format : String)
  /-- `TypeError: (intermediate value).then is not a function` — thrown by the
  `base64`/`base64url` branches of `fromStream`, which call `.then` directly
  on a `Response` object. -/
  | notAFunction
  /-- The spec's `FormatError`: malformed compressed-stream header or framing. -/
  | formatError
  /-- The spec's `IntegrityError`: checksum or length mismatch on decompress. -/
  | integrityError
  /-- An abort reason thrown after observing a cancelled `AbortSignal`. -/
  | aborted (reason : String)
deriving DecidableEq, Repr

/-- Modelled from the spec: full compression — format framing around the
stored-block body (§4.2: gzip header `1f 8b 08` + flags/mtime/xfl/os and a
CRC-32 + length-mod-2^32 little-endian trailer; zlib 2-byte header and
big-endian Adler-32 trailer; raw deflate bare). -/
def compressBytes : Fmt → List Nat → List Nat
  | .gzip, b =>
    31 :: 139 :: 8 :: 0 :: 0 :: 0 :: 0 :: 0 :: 0 :: 255 ::
      (encodeBlocks b ++ (le32 (crc32 b) ++ le32 (b.length % 4294967296)))
  | .deflate, b => 120 :: 156 :: (encodeBlocks b ++ be32 (adler32 b))
  | .deflateRaw, b => encodeBlocks b

/-- Modelled from the spec: full decompression — header validation
(`formatError` on malformed framing), body parse, and trailer checksum /
length verification (`integrityError` on mismatch). -/
def decompressBytes : Fmt → List Nat → Except JsError (List Nat)
  | .gzip, d =>
    match d with
    | b0 :: b1 :: b2 :: b3 :: _ :: _ :: _ :: _ :: _ :: _ :: rest =>
      if b0 = 31 ∧ b1 = 139 ∧ b2 = 8 ∧ b3 = 0 then
        match decodeBlocks rest with
        | some (out, tr) =>
          if tr = le32 (crc32 out) ++ le32 (out.length % 4294967296) then .ok out
          else if tr.length = 8 then .error .integrityError
          else .error .formatError
        | none => .error .formatError
      else .error .formatError
    | _ => .error .formatError
  | .deflate, d =>
    match d with
    | c0 :: c1 :: rest =>
      if c0 % 16 = 8 ∧ (c0 * 256 + c1) % 31 = 0 then
        match decodeBlocks rest with
        | some (out, tr) =>
          if tr = be32 (adler32 out) then .ok out
          else if tr.length = 4 then .error .integrityError
          else .error .formatError
        | none => .error .formatError
      else .error .formatError
    | _ => .error .formatError
  | .deflateRaw, d =>
    match decodeBlocks d with
    | some (out, []) => .ok out
    | some _ => .error .formatError
    | none => .error .formatError

/-! ### Codec round-trip -/

/-- The stored-block body embeds its input, so the encoding is at least as
long as the input. -/
theorem length_le_encodeAux : ∀ (ef : Nat) (b : List Nat), b.length ≤ (encodeAux ef b).length := by
  intro ef
  induction ef with
  | zero => intro b; simp [encodeAux]; omega
  | succ ef ih =>
    intro b
    by_cases hb : b.length ≤ 65535
    · simp [encodeAux, hb]; omega
    · have h1 := ih (b.drop 65535)
      simp only [encodeAux, if_neg hb, List.length_cons, List.length_append, List.length_take,
        List.length_drop] at *
      omega

/-- Decoding an encoded body returns the original bytes and leaves any
appended trailer untouched, for any sufficient fuels. -/
theorem decodeAux_encodeAux :
    ∀ (ef : Nat) (b : List Nat) (df : Nat) (extra : List Nat),
      b.length < 65535 * ef → b.length < 65535 * df →
      decodeAux df (encodeAux ef b ++ extra) = some (b, extra) := by
  intro ef
  induction ef with
  | zero => intro b df extra hef; omega
  | succ ef ih =>
    intro b df extra hef hdf
    obtain ⟨df', rfl⟩ : ∃ d, df = d + 1 := ⟨df - 1, by omega⟩
    by_cases hb : b.length ≤ 65535
    · rw [encodeAux, if_pos hb]
      have hcons : (1 :: b.length % 256 :: b.length / 256 :: b) ++ extra
          = 1 :: b.length % 256 :: b.length / 256 :: (b ++ extra) := by simp
      rw [hcons, decodeAux]
      have hlen : b.length % 256 + 256 * (b.length / 256) = b.length := Nat.mod_add_div _ _
      simp only [hlen]
      rw [if_pos trivial, if_pos (by simp)]
      simp [List.take_left, List.drop_left]
    · rw [encodeAux, if_neg hb]
      have hcons : (0 :: 255 :: 255 :: (b.take 65535 ++ encodeAux ef (b.drop 65535))) ++ extra
          = 0 :: 255 :: 255 :: (b.take 65535 ++ (encodeAux ef (b.drop 65535) ++ extra)) := by
        simp
      rw [hcons, decodeAux]
      have htk : (b.take 65535).length = 65535 := by
        simp [List.length_take]; omega
      have hlen : (b.take 65535 ++ (encodeAux ef (b.drop 65535) ++ extra)).length = 65535 + (encodeAux ef (b.drop 65535) ++ extra).length := by
        simp [htk]
      rw [if_neg (by omega), if_pos (by constructor <;> omega)]
      have hdrop : (b.take 65535 ++ (encodeAux ef (b.drop 65535) ++ extra)).drop 65535
          = encodeAux ef (b.drop 65535) ++ extra := by
        rw [List.drop_append_of_le_length (by omega)]
        simp [htk]
      have htake : (b.take 65535 ++ (encodeAux ef (b.drop 65535) ++ extra)).take 65535
          = b.take 65535 := by
        rw [List.take_append_of_le_length (by omega)]
        simp [htk]
      rw [hdrop, ih (b.drop 65535) df' extra (by simp [List.length_drop]; omega)
        (by simp [List.length_drop]; omega)]
      rw [htake]
      simp

/-- Body round-trip at the default fuels, with the trailer as unconsumed
tail. -/
theorem decodeBlocks_encodeBlocks (b extra : List Nat) :
    decodeBlocks (encodeBlocks b ++ extra) = some (b, extra) := by
  have hlen : b.length ≤ (encodeBlocks b).length := length_le_encodeAux _ b
  refine decodeAux_encodeAux (b.length + 1) b _ extra (by omega) ?_
  have h1 : (encodeBlocks b ++ extra).length + 1 ≤ 65535 * ((encodeBlocks b ++ extra).length + 1) :=
    Nat.le_mul_of_pos_left _ (by omega)
  simp only [List.length_append] at h1 ⊢
  omega

/-- Round-trip of the spec-modelled codec: decompressing a compression in
the same format recovers the original bytes, for all three formats. -/
theorem decompressBytes_compressBytes (fmt : Fmt) (b : List Nat) :
    decompressBytes fmt (compressBytes fmt b) = .ok b := by
  cases fmt with
  | gzip =>
    simp only [compressBytes, decompressBytes]
    rw [decodeBlocks_encodeBlocks]
    simp
  | deflate =>
    simp only [compressBytes, decompressBytes]
    rw [decodeBlocks_encodeBlocks]
    simp
  | deflateRaw =>
    simp only [compressBytes, decompressBytes]
    have h := decodeBlocks_encodeBlocks b []
    rw [List.append_nil] at h
    rw [h]

/-! ## Text and hex codecs (platform `TextEncoderStream` / `TextDecoder` /
`Uint8Array.prototype.toHex`, modelled from the spec's §4.1/§4.4) -/

/-- Modelled from the spec: UTF-8 encoding of one Unicode scalar value
(§4.1 "Text input is encoded as UTF-8 before chunking"). -/
def utf8EncodeCodepoint (n : Nat) : List Nat :=
  if n < 128 then [n]
  else if n < 2048 then [192 + n / 64, 128 + n % 64]
  else if n < 65536 then [224 + n / 4096, 128 + n / 64 % 64, 128 + n % 64]
  else [240 + n / 262144, 128 + n / 4096 % 64, 128 + n / 64 % 64, 128 + n % 64]

/-- UTF-8 encoding of a character list. -/
def encodeUTF8Chars : List Char → List Nat
  | [] => []
  | c :: cs => utf8EncodeCodepoint c.toNat ++ encodeUTF8Chars cs

/-- UTF-8 encoding of a string (the model of `TextEncoderStream`). -/
def encodeUTF8 (s : String) : List Nat :=
  encodeUTF8Chars s.data

/-- The Unicode replacement character U+FFFD. -/
def repl : Char := Char.ofNat 65533

/-- Modelled from the spec: UTF-8 decoding with U+FFFD replacement on
malformed sequences (the `Response.text()` materialization of §4.4).
Lead-byte ranges, continuation ranges, overlong and surrogate exclusions
follow the WHATWG decoder. -/
def utf8DecodeChars : List Nat → List Char
  | [] => []
  | b0 :: rest =>
    if b0 < 128 then Char.ofNat b0 :: utf8DecodeChars rest
    else if b0 < 194 then repl :: utf8DecodeChars rest
    else if b0 < 224 then
      match rest with
      | b1 :: r1 =>
        if 128 ≤ b1 ∧ b1 < 192 then
          Char.ofNat ((b0 - 192) * 64 + (b1 - 128)) :: utf8DecodeChars r1
        else repl :: utf8DecodeChars (b1 :: r1)
      | [] => [repl]
    else if b0 < 240 then
      match rest with
      | b1 :: b2 :: r2 =>
        if ((if b0 = 224 then 160 else 128) ≤ b1 ∧ b1 ≤ (if b0 = 237 then 159 else 191))
            ∧ (128 ≤ b2 ∧ b2 < 192) then
          Char.ofNat ((b0 - 224) * 4096 + (b1 - 128) * 64 + (b2 - 128)) :: utf8DecodeChars r2
        else repl :: utf8DecodeChars (b1 :: b2 :: r2)
      | _ => [repl]
    else if b0 < 245 then
      match rest with
      | b1 :: b2 :: b3 :: r3 =>
        if ((if b0 = 240 then 144 else 128) ≤ b1 ∧ b1 ≤ (if b0 = 244 then 143 else 191))
            ∧ (128 ≤ b2 ∧ b2 < 192) ∧ (128 ≤ b3 ∧ b3 < 192) then
          Char.ofNat ((b0 - 240) * 262144 + (b1 - 128) * 4096 + (b2 - 128) * 64 + (b3 - 128))
            :: utf8DecodeChars r3
        else repl :: utf8DecodeChars (b1 :: b2 :: b3 :: r3)
      | _ => [repl]
    else repl :: utf8DecodeChars rest

/-- UTF-8 decoding of a byte list to a string. -/
def utf8Decode (bs : List Nat) : String :=
  String.mk (utf8DecodeChars bs)

/-- One lowercase hex digit. -/
def hexDigit (n : Nat) : Char :=
  if n < 10 then Char.ofNat (48 + n) else Char.ofNat (87 + n)

/-- Two lowercase hex digits per byte (`Uint8Array.prototype.toHex`). -/
def toHexChars : List Nat → List Char
  | [] => []
  | b :: r => hexDigit (b / 16 % 16) :: hexDigit (b % 16) :: toHexChars r

/-- Hex string of a byte list. -/
def toHex (bs : List Nat) : String :=
  String.mk (toHexChars bs)

/-! ## The wrapper layer, embedded from `squish.js` -/

/-- `export const GZIP = 'gzip'` -/
def GZIP : String := "gzip"

/-- `export const DEFLATE = 'deflate'` -/
def DEFLATE : String := "deflate"

/-- `export const DEFLATE_RAW = 'deflate-raw'` -/
def DEFLATE_RAW : String := "deflate-raw"

/-- `export const DEFAULT_FORMAT = GZIP` -/
def DEFAULT_FORMAT : String := GZIP

/-- The format strings accepted by the `CompressionStream` /
`DecompressionStream` constructors. -/
def parseFormat : String → Option Fmt
  | "gzip" => some .gzip
  | "deflate" => some .deflate
  | "deflate-raw" => some .deflateRaw
  | _ => none

/-- The JavaScript values `squish.js` can receive as `data`, partitioned the
way `toStream`'s `typeof` / `instanceof` chain observes them.  Chunked
streams are lists of byte chunks; `Request`/`Response` carry an optional
body stream (`none` when `input.body` is not a `ReadableStream`, e.g. a
bodyless GET request). -/
inductive Input
  /-- A JavaScript string. -/
  | str (s : String)
  /-- A non-object, non-string primitive, tagged with its `typeof` name
  (e.g. `"number"`). -/
  | primitive (typeofName : String)
  /-- A `ReadableStream` of byte chunks. -/
  | stream (chunks : List (List Nat))
  /-- An `ArrayBuffer`. -/
  | arrayBuffer (bytes : List Nat)
  /-- A `Uint8Array` (including node `Buffer`s). -/
  | uint8 (bytes : List Nat)
  /-- A `Blob` (or `File`). -/
  | blob (bytes : List Nat)
  /-- A `Request`, with its body when that body is a `ReadableStream`. -/
  | request (body : Option (List (List Nat)))
  /-- A `Response`, with its body when that body is a `ReadableStream`. -/
  | response (body : Option (List (List Nat)))
  /-- Any other object (arrays, plain objects, …). -/
  | otherObject
deriving DecidableEq, Repr

/-- `toStream(input)` (squish.js:13-46): strings are piped through a
`TextEncoderStream`; non-objects throw `Invalid input type`; streams pass
through unchanged; buffers, byte arrays and blobs become one-chunk streams;
`Request`/`Response` contribute their body stream when it is a
`ReadableStream`; everything else throws `Unsupported input type`. -/
def toStream : Input → Except JsError (List (List Nat))
  | .str s => .ok [encodeUTF8 s]
  | .primitive t => .error (.invalidInputType t)
  | .stream chunks => .ok chunks
  | .arrayBuffer bytes => .ok [bytes]
  | .uint8 bytes => .ok [bytes]
  | .blob bytes => .ok [bytes]
  | .request (some body) => .ok body
  | .response (some body) => .ok body
  | .request none => .error .unsupportedInput
  | .response none => .error .unsupportedInput
  | .otherObject => .error .unsupportedInput

/-- An `AbortSignal`: an aborted flag with a reason. -/
structure AbortSignal where
  aborted : Bool
  reason : String
deriving DecidableEq, Repr

/-- A pipeline stream as the materializer observes it: the chunk sequence it
would deliver, the outcome of consuming it fully (`consume`), and how many
chunks of the original source a full consumption pulls (`reads`). -/
structure PStream where
  chunks : List (List Nat)
  consume : Except JsError (List Nat)
  reads : Nat
deriving DecidableEq, Repr

/-- Concatenation of a chunk sequence. -/
def joinChunks (cs : List (List Nat)) : List Nat :=
  cs.foldr (· ++ ·) []

/-- A plain `ReadableStream` viewed as a pipeline stream: consuming it
yields the concatenation of its chunks and reads every chunk. -/
def ofChunks (cs : List (List Nat)) : PStream :=
  ⟨cs, .ok (joinChunks cs), cs.length⟩

/-- The codec transform of one full byte sequence:
`CompressionStream`/`DecompressionStream` selected by
`method === 'compress'` (squish.js:94). -/
def codecBytes (method : String) (fmt : Fmt) (b : List Nat) : Except JsError (List Nat) :=
  if method = "compress" then .ok (compressBytes fmt b) else decompressBytes fmt b

/-- `src.pipeThrough(codec, { signal })`: with an already-aborted signal the
pipe fails with the abort reason before pulling any source chunk; otherwise
consuming the piped stream pulls the whole source and applies the codec to
the concatenated bytes (the chunk-boundary-independent view of the platform
transform). -/
def pipeThroughCodec (src : PStream) (method : String) (fmt : Fmt)
    (signal : Option AbortSignal) : PStream :=
  match signal with
  | some sig =>
    if sig.aborted then ⟨[], .error (.aborted sig.reason), 0⟩
    else pipeCore src method fmt
  | none => pipeCore src method fmt
where
  /-- The unsignalled pipe: propagate a source error, else transform. -/
  pipeCore (src : PStream) (method : String) (fmt : Fmt) : PStream :=
    match src.consume with
    | .error e => ⟨[], .error e, src.reads⟩
    | .ok bytes =>
      match codecBytes method fmt bytes with
      | .ok out => ⟨[out], .ok out, src.reads⟩
      | .error e => ⟨[], .error e, src.reads⟩

/-- The values `fromStream` can resolve to. -/
inductive OutValue
  /-- The raw pipeline stream (`output: 'stream'`). -/
  | stream (s : PStream)
  /-- `new Response(stream)` wrapping the yet-unconsumed stream. -/
  | response (s : PStream)
  /-- A `Blob` with its `Content-Type`. -/
  | blob (bytes : List Nat) (type : String)
  /-- An `ArrayBuffer`. -/
  | buffer (bytes : List Nat)
  /-- A `Uint8Array`. -/
  | bytes (b : List Nat)
  /-- A lowercase hex string. -/
  | hex (s : String)
  /-- A base64 string (never produced by the current code, see
  `JsError.notAFunction`). -/
  | base64 (s : String)
  /-- A base64url string (never produced by the current code). -/
  | base64url (s : String)
  /-- An object URL handle for a `Blob` of these bytes. -/
  | url (blobBytes : List Nat) (type : String)
  /-- A decoded text string. -/
  | text (s : String)
deriving DecidableEq, Repr

/-- `fromStream(stream, output = 'blob', { type = 'application/octet-stream' })`
(squish.js:56-74), instrumented with the number of source chunks the call
reads.  The `'stream'` and `'response'` branches return without consuming;
the materializing branches consume the pipeline; the `'base64'` and
`'base64url'` branches call `.then` on a `Response` object — a `TypeError`
thrown before any consumption; an unrecognized selector throws
`Unsupported output` before any consumption. -/
def fromStream (s : PStream) (output : Option String) (type : Option String) :
    Except JsError OutValue × Nat :=
  let out := output.getD "blob"
  let ty := type.getD "application/octet-stream"
  if out = "stream" then (.ok (.stream s), 0)
  else if out = "response" then (.ok (.response s), 0)
  else if out = "blob" then (s.consume.map (fun b => .blob b ty), s.reads)
  else if out = "buffer" then (s.consume.map .buffer, s.reads)
  else if out = "bytes" then (s.consume.map .bytes, s.reads)
  else if out = "hex" then (s.consume.map (fun b => .hex (toHex b)), s.reads)
  else if out = "base64" then (.error .notAFunction, 0)
  else if out = "base64url" then (.error .notAFunction, 0)
  else if out = "url" then (s.consume.map (fun b => .url b ty), s.reads)
  else if out = "text" then (s.consume.map (fun b => .text (utf8Decode b)), s.reads)
  else (.error (.unsupportedOutput out), 0)

/-- `_transform(method, data, { format = DEFAULT_FORMAT, output = 'blob',
type = 'application/octet-stream', signal })` (squish.js:87-99), with the
count of source chunks read.  `toStream` runs first (its `TypeError`s win),
then the codec constructor rejects unknown formats, then `fromStream`
dispatches on the output selector. -/
def _transformT (method : String) (data : Input)
    (output format type : Option String) (signal : Option AbortSignal) :
    Except JsError OutValue × Nat :=
  match toStream data with
  | .error e => (.error e, 0)
  | .ok chunks =>
    match parseFormat (format.getD DEFAULT_FORMAT) with
    | none => (.error (.unsupportedFormat (format.getD DEFAULT_FORMAT)), 0)
    | some fmt => fromStream (pipeThroughCodec (ofChunks chunks) method fmt signal) output type

/-- `compress(data, { output = 'blob', format = DEFAULT_FORMAT, signal })`
(squish.js:111-113), instrumented. -/
def compressT (data : Input) (output format : Option String) (signal : Option AbortSignal) :
    Except JsError OutValue × Nat :=
  _transformT "compress" data (some (output.getD "blob")) (some (format.getD DEFAULT_FORMAT))
    none signal

/-- `compress` — the resolved value / rejection. -/
def compress (data : Input) (output format : Option String) (signal : Option AbortSignal) :
    Except JsError OutValue :=
  (compressT data output format signal).1

/-- `decompress(data, { output, format = DEFAULT_FORMAT, signal })`
(squish.js:142-144): `output` is passed through without a default of its
own (`_transform` supplies `'blob'` when it is `undefined`). -/
def decompressT (data : Input) (output format : Option String) (signal : Option AbortSignal) :
    Except JsError OutValue × Nat :=
  _transformT "decompress" data output (some (format.getD DEFAULT_FORMAT)) none signal

/-- `decompress` — the resolved value / rejection. -/
def decompress (data : Input) (output format : Option String) (signal : Option AbortSignal) :
    Except JsError OutValue :=
  (decompressT data output format signal).1

/-- `compressStream(stream, { format = 'gzip', signal })` (squish.js:124-130):
an already-aborted signal throws its reason synchronously, before the
codec stream is even constructed; otherwise the source is piped through a
`CompressionStream` (the signal is given to the constructor, not the pipe). -/
def compressStream (chunks : List (List Nat)) (format : Option String)
    (signal : Option AbortSignal) : Except JsError PStream :=
  match signal with
  | some sig =>
    if sig.aborted then .error (.aborted sig.reason)
    else
      match parseFormat (format.getD "gzip") with
      | none => .error (.unsupportedFormat (format.getD "gzip"))
      | some fmt => .ok (pipeThroughCodec (ofChunks chunks) "compress" fmt none)
  | none =>
    match parseFormat (format.getD "gzip") with
    | none => .error (.unsupportedFormat (format.getD "gzip"))
    | some fmt => .ok (pipeThroughCodec (ofChunks chunks) "compress" fmt none)

/-- `decompressStream(stream, { format = 'gzip', signal })` (squish.js:155-161),
mirroring `compressStream`. -/
def decompressStream (chunks : List (List Nat)) (format : Option String)
    (signal : Option AbortSignal) : Except JsError PStream :=
  match signal with
  | some sig =>
    if sig.aborted then .error (.aborted sig.reason)
    else
      match parseFormat (format.getD "gzip") with
      | none => .error (.unsupportedFormat (format.getD "gzip"))
      | some fmt => .ok (pipeThroughCodec (ofChunks chunks) "decompress" fmt none)
  | none =>
    match parseFormat (format.getD "gzip") with
    | none => .error (.unsupportedFormat (format.getD "gzip"))
    | some fmt => .ok (pipeThroughCodec (ofChunks chunks) "decompress" fmt none)

/-- `gzip(data, { output = 'blob', signal })` (squish.js:172-174). -/
def gzip (data : Input) (output : Option String) (signal : Option AbortSignal) :
    Except JsError OutValue :=
  (_transformT "compress" data (some (output.getD "blob")) (some GZIP) none signal).1

/-- `gunzip(data, { output, signal })` (squish.js:195-197). -/
def gunzip (data : Input) (output : Option String) (signal : Option AbortSignal) :
    Except JsError OutValue :=
  (_transformT "decompress" data output (some GZIP) none signal).1

/-- `deflate(data, { output = 'blob', signal })` (squish.js:218-220). -/
def deflate (data : Input) (output : Option String) (signal : Option AbortSignal) :
    Except JsError OutValue :=
  (_transformT "compress" data (some (output.getD "blob")) (some DEFLATE) none signal).1

/-- `deflateRaw(data, { output = 'blob', signal })` (squish.js:231-233). -/
def deflateRaw (data : Input) (output : Option String) (signal : Option AbortSignal) :
    Except JsError OutValue :=
  (_transformT "compress" data (some (output.getD "blob")) (some DEFLATE_RAW) none signal).1

/-- `inflate(data, { output, signal })` (squish.js:264-266). -/
def inflate (data : Input) (output : Option String) (signal : Option AbortSignal) :
    Except JsError OutValue :=
  (_transformT "decompress" data output (some DEFLATE) none signal).1

/-- `inflateRaw(data, { output, signal })` (squish.js:277-279). -/
def inflateRaw (data : Input) (output : Option String) (signal : Option AbortSignal) :
    Except JsError OutValue :=
  (_transformT "decompress" data output (some DEFLATE_RAW) none signal).1

/-- `gzipStream = (stream, { signal } = {}) => compressStream(stream, { format: GZIP, signal })` -/
def gzipStream (chunks : List (List Nat)) (signal : Option AbortSignal) :
    Except JsError PStream :=
  compressStream chunks (some GZIP) signal

/-- `gunzipStream = (stream, { signal } = {}) => decompressStream(stream, { format: GZIP, signal })` -/
def gunzipStream (chunks : List (List Nat)) (signal : Option AbortSignal) :
    Except JsError PStream :=
  decompressStream chunks (some GZIP) signal

/-- `deflateStream = (stream, { signal } = {}) => compressStream(stream, { format: DEFLATE, signal })` -/
def deflateStream (chunks : List (List Nat)) (signal : Option AbortSignal) :
    Except JsError PStream :=
  compressStream chunks (some DEFLATE) signal

/-- `deflateRawStream = (stream, { signal } = {}) => compressStream(stream, { format: DEFLATE_RAW, signal })` -/
def deflateRawStream (chunks : List (List Nat)) (signal : Option AbortSignal) :
    Except JsError PStream :=
  compressStream chunks (some DEFLATE_RAW) signal

/-- `inflateStream = (stream, { signal } = {}) => decompressStream(stream, { format: DEFLATE, signal })` -/
def inflateStream (chunks : List (List Nat)) (signal : Option AbortSignal) :
    Except JsError PStream :=
  decompressStream chunks (some DEFLATE) signal

/-- `inflateRawStream = (stream, { signal } = {}) => decompressStream(stream, { format: DEFLATE_RAW, signal })` -/
def inflateRawStream (chunks : List (List Nat)) (signal : Option AbortSignal) :
    Except JsError PStream :=
  decompressStream chunks (some DEFLATE_RAW) signal

/-! ## Composites used by the claim statements -/

/-- The output selectors handled by `fromStream`'s `switch`. -/
def supportedOutputs : List String :=
  ["stream", "response", "blob", "buffer", "bytes", "hex", "base64", "base64url", "url", "text"]

/-- `decompress(compress(b, { format: f }), { format: f })` at the default
(`Blob`) output: the compressed blob is fed back to `decompress`. -/
def roundtripDefault (f : String) (b : List Nat) : Except JsError OutValue :=
  match compress (.uint8 b) none (some f) none with
  | .ok (.blob c _) => decompress (.blob c) none (some f) none
  | r => r

/-- `gunzip(await gzip("Hello, World!"), { output: 'text' })`: the spec's
concrete text scenario. -/
def gzipTextScenario : Except JsError OutValue :=
  match gzip (.str "Hello, World!") none none with
  | .ok (.blob c _) => gunzip (.blob c) (some "text") none
  | r => r

/-! ## Bridging lemmas -/

/-- Compressing a `Uint8Array` with the default output resolves to a `Blob`
of the codec's compression of its bytes. -/
theorem compress_uint8 (f : String) (fmt : Fmt) (hpf : parseFormat f = some fmt)
    (b : List Nat) :
    compress (.uint8 b) none (some f) none
      = .ok (.blob (compressBytes fmt b) "application/octet-stream") := by
  simp [compress, compressT, _transformT, toStream, hpf, pipeThroughCodec,
    pipeThroughCodec.pipeCore, ofChunks, joinChunks, codecBytes, fromStream, Except.map]

/-- Decompressing a `Blob` with the default output resolves to a `Blob` of
the codec's decompression of its bytes, when that decompression succeeds. -/
theorem decompress_blob_ok (f : String) (fmt : Fmt) (hpf : parseFormat f = some fmt)
    (c out : List Nat) (hdec : decompressBytes fmt c = .ok out) :
    decompress (.blob c) none (some f) none
      = .ok (.blob out "application/octet-stream") := by
  simp [decompress, decompressT, _transformT, toStream, hpf, pipeThroughCodec,
    pipeThroughCodec.pipeCore, ofChunks, joinChunks, codecBytes, hdec, fromStream, Except.map]

/-! ## The claims -/

/-- C1: for every format `f` in {gzip, deflate, deflate-raw} and every byte
sequence `b` (including the empty one), decompressing the result of
compressing `b` with format `f` yields exactly `b`. -/
theorem compress_decompress_roundtrip (f : String)
    (hf : f ∈ [GZIP, DEFLATE, DEFLATE_RAW]) (b : List Nat) :
    roundtripDefault f b = .ok (.blob b "application/octet-stream") := by
  have key : ∀ fmt : Fmt, parseFormat f = some fmt →
      roundtripDefault f b = .ok (.blob b "application/octet-stream") := by
    intro fmt hpf
    unfold roundtripDefault
    rw [compress_uint8 f fmt hpf b]
    exact decompress_blob_ok f fmt hpf _ b (decompressBytes_compressBytes fmt b)
  simp only [GZIP, DEFLATE, DEFLATE_RAW, List.mem_cons, List.mem_singleton,
    List.not_mem_nil, or_false] at hf
  rcases hf with rfl | rfl | rfl
  · exact key .gzip rfl
  · exact key .deflate rfl
  · exact key .deflateRaw rfl

/-- C1 witness: the round trip concretely, on the empty byte sequence with
format gzip. -/
theorem compress_decompress_roundtrip_witness :
    ("gzip" : String) ∈ [GZIP, DEFLATE, DEFLATE_RAW] ∧
      roundtripDefault "gzip" [] = .ok (.blob [] "application/octet-stream") :=
  ⟨by decide, compress_decompress_roundtrip "gzip" (by decide) []⟩

/-- C2 (code bug): the `base64` and `base64url` branches of `fromStream` call
`.then` directly on a `Response` object (`new Response(stream).then(...)`,
squish.js:67-68, missing the `.bytes()` call the `hex` branch has), so both
`compress` and `decompress` with these selectors reject with a `TypeError`
instead of resolving to the encoded string — evaluated here at concrete
inputs, reading no chunk. -/
theorem base64_output_rejects :
    compressT (.uint8 [1, 2, 3]) (some "base64") none none = (.error .notAFunction, 0) ∧
    compressT (.uint8 [1, 2, 3]) (some "base64url") none none = (.error .notAFunction, 0) ∧
    decompressT (.blob (compressBytes .gzip [1, 2, 3])) (some "base64") none none
      = (.error .notAFunction, 0) ∧
    decompressT (.blob (compressBytes .gzip [1, 2, 3])) (some "base64url") none none
      = (.error .notAFunction, 0) := by
  decide

/-- C3 counterexample: for the input `9` (a bare number) and the unsupported
selector `"bogus"`, `compress` rejects with the invalid-input `TypeError`
from `toStream` — not with the unsupported-output error, because `toStream`
runs before `fromStream`'s selector check. -/
theorem unsupported_output_counterexample :
    compress (.primitive "number") (some "bogus") none none
      = .error (.invalidInputType "number") ∧
    compress (.primitive "number") (some "bogus") none none
      ≠ .error (.unsupportedOutput "bogus") := by
  decide

/-- C3 (amended): for every input that `toStream` accepts and every output
selector outside the supported set, `compress` and `decompress` fail with
the unsupported-output error, raised before any input chunk is read. -/
theorem unsupported_output_error_before_read (data : Input) (chunks : List (List Nat))
    (out : String) (sig : Option AbortSignal)
    (hok : toStream data = .ok chunks) (hout : out ∉ supportedOutputs) :
    compressT data (some out) none sig = (.error (.unsupportedOutput out), 0) ∧
    decompressT data (some out) none sig = (.error (.unsupportedOutput out), 0) := by
  simp only [supportedOutputs, List.mem_cons, List.mem_singleton, List.not_mem_nil,
    or_false, not_or] at hout
  obtain ⟨h1, h2, h3, h4, h5, h6, h7, h8, h9, h10⟩ := hout
  have hgz : parseFormat DEFAULT_FORMAT = some Fmt.gzip := rfl
  constructor <;>
    simp [compressT, decompressT, _transformT, hok, hgz, fromStream,
      h1, h2, h3, h4, h5, h6, h7, h8, h9, h10]

/-- C3 witness: the amended claim at a `Uint8Array` input and the selector
`"bogus"`. -/
theorem unsupported_output_error_before_read_witness :
    toStream (.uint8 [7]) = .ok [[7]] ∧ ("bogus" : String) ∉ supportedOutputs ∧
      (compressT (.uint8 [7]) (some "bogus") none none
          = (.error (.unsupportedOutput "bogus"), 0) ∧
        decompressT (.uint8 [7]) (some "bogus") none none
          = (.error (.unsupportedOutput "bogus"), 0)) :=
  ⟨by decide, by decide,
    unsupported_output_error_before_read (.uint8 [7]) [[7]] "bogus" none (by decide) (by decide)⟩

/-- C4: `compressStream` and `decompressStream` with an already-aborted
signal fail synchronously with the signal's reason, for every source stream
and format — in particular before any chunk of the source is read. -/
theorem aborted_signal_fails_streams (chunks : List (List Nat)) (format : Option String)
    (sig : AbortSignal) (h : sig.aborted = true) :
    compressStream chunks format (some sig) = .error (.aborted sig.reason) ∧
    decompressStream chunks format (some sig) = .error (.aborted sig.reason) := by
  constructor <;> simp [compressStream, decompressStream, h]

/-- C4 witness: an aborted signal with reason `"stop"` on a concrete
stream. -/
theorem aborted_signal_fails_streams_witness :
    (AbortSignal.mk true "stop").aborted = true ∧
      (compressStream [[1, 2]] none (some ⟨true, "stop"⟩) = .error (.aborted "stop") ∧
        decompressStream [[1, 2]] none (some ⟨true, "stop"⟩) = .error (.aborted "stop")) :=
  ⟨rfl, aborted_signal_fails_streams [[1, 2]] none ⟨true, "stop"⟩ rfl⟩

/-- C5: a non-object non-string primitive (e.g. a bare number) fails with the
invalid-input `TypeError`, and an unrecognized object fails with the
unsupported-input `TypeError`, for both `compress` and `decompress`, for
every option combination, with no input chunk read and no output
produced. -/
theorem invalid_input_fails_fast (t : String) (output format : Option String)
    (sig : Option AbortSignal) :
    compressT (.primitive t) output format sig = (.error (.invalidInputType t), 0) ∧
    decompressT (.primitive t) output format sig = (.error (.invalidInputType t), 0) ∧
    compressT .otherObject output format sig = (.error .unsupportedInput, 0) ∧
    decompressT .otherObject output format sig = (.error .unsupportedInput, 0) := by
  refine ⟨?_, ?_, ?_, ?_⟩ <;> simp [compressT, decompressT, _transformT, toStream]

set_option maxRecDepth 8000 in
/-- C6: string inputs are encoded as UTF-8 before compression, and
`gunzip(await gzip("Hello, World!"), { output: 'text' })` returns exactly
`"Hello, World!"`. -/
theorem string_utf8_and_text_roundtrip :
    (∀ s : String, toStream (.str s) = .ok [encodeUTF8 s]) ∧
      gzipTextScenario = .ok (.text "Hello, World!") :=
  ⟨fun _ => rfl, by decide⟩

/-- C7: an input that is already a `ReadableStream` is returned by `toStream`
unchanged — the identical chunk sequence, with no re-buffering. -/
theorem toStream_passthrough (chunks : List (List Nat)) :
    toStream (.stream chunks) = .ok chunks :=
  rfl

/-- C8: with no output selector, `compress` resolves to a `Blob` (the default
buffer-like container, `Content-Type: application/octet-stream`) holding the
full compressed bytes, and `decompress` — whose own options give `output` no
explicit default — resolves to the same default `Blob` representation of the
decompressed bytes whenever decompression succeeds. -/
theorem default_output_is_blob (data : Input) (chunks : List (List Nat))
    (format : Option String) (fmt : Fmt) (out : List Nat)
    (hok : toStream data = .ok chunks)
    (hfmt : parseFormat (format.getD DEFAULT_FORMAT) = some fmt) :
    compress data none format none
        = .ok (.blob (compressBytes fmt (joinChunks chunks)) "application/octet-stream") ∧
      (decompressBytes fmt (joinChunks chunks) = .ok out →
        decompress data none format none = .ok (.blob out "application/octet-stream")) := by
  constructor
  · simp [compress, compressT, _transformT, hok, hfmt, pipeThroughCodec,
      pipeThroughCodec.pipeCore, ofChunks, codecBytes, fromStream, Except.map]
  · intro hdec
    simp [decompress, decompressT, _transformT, hok, hfmt, pipeThroughCodec,
      pipeThroughCodec.pipeCore, ofChunks, codecBytes, hdec, fromStream, Except.map]

/-- C8 witness: a `Blob` input holding a gzip member, compressed and
decompressed with default options. -/
theorem default_output_is_blob_witness :
    toStream (.blob (compressBytes .gzip [5])) = .ok [compressBytes .gzip [5]] ∧
      parseFormat ((none : Option String).getD DEFAULT_FORMAT) = some Fmt.gzip ∧
      (compress (.blob (compressBytes .gzip [5])) none none none
          = .ok (.blob (compressBytes .gzip (joinChunks [compressBytes .gzip [5]]))
              "application/octet-stream") ∧
        (decompressBytes .gzip (joinChunks [compressBytes .gzip [5]]) = .ok [5] →
          decompress (.blob (compressBytes .gzip [5])) none none none
            = .ok (.blob [5] "application/octet-stream"))) := by
  refine ⟨by decide, by decide, ?_⟩
  exact default_output_is_blob (.blob (compressBytes .gzip [5])) [compressBytes .gzip [5]]
    none .gzip [5] (by decide) (by decide)

/-- C9: every named format helper equals the generic operation with its
format fixed — `gzip`/`gunzip` at `'gzip'`, `deflate`/`inflate` at
`'deflate'`, `deflateRaw`/`inflateRaw` at `'deflate-raw'`, and each
`*Stream` helper equals `compressStream`/`decompressStream` at the
corresponding format. -/
theorem named_helpers_equal_generic :
    (∀ data output signal, gzip data output signal = compress data output (some GZIP) signal) ∧
    (∀ data output signal, gunzip data output signal = decompress data output (some GZIP) signal) ∧
    (∀ data output signal, deflate data output signal = compress data output (some DEFLATE) signal) ∧
    (∀ data output signal,
      deflateRaw data output signal = compress data output (some DEFLATE_RAW) signal) ∧
    (∀ data output signal, inflate data output signal = decompress data output (some DEFLATE) signal) ∧
    (∀ data output signal,
      inflateRaw data output signal = decompress data output (some DEFLATE_RAW) signal) ∧
    (∀ chunks signal, gzipStream chunks signal = compressStream chunks (some GZIP) signal) ∧
    (∀ chunks signal, gunzipStream chunks signal = decompressStream chunks (some GZIP) signal) ∧
    (∀ chunks signal, deflateStream chunks signal = compressStream chunks (some DEFLATE) signal) ∧
    (∀ chunks signal,
      deflateRawStream chunks signal = compressStream chunks (some DEFLATE_RAW) signal) ∧
    (∀ chunks signal, inflateStream chunks signal = decompressStream chunks (some DEFLATE) signal) ∧
    (∀ chunks signal,
      inflateRawStream chunks signal = decompressStream chunks (some DEFLATE_RAW) signal) := by
  refine ⟨?_, ?_, ?_, ?_, ?_, ?_, ?_, ?_, ?_, ?_, ?_, ?_⟩ <;> intros <;> rfl

/-- C10: a `Request` or `Response` whose body is not a `ReadableStream` (a
bodyless request, an empty response) is rejected by `toStream` — and hence
by `compress` and `decompress` — with the unsupported-input `TypeError`,
never treated as an empty byte sequence. -/
theorem bodyless_request_response_rejected (output format : Option String)
    (sig : Option AbortSignal) :
    toStream (.request none) = .error .unsupportedInput ∧
    toStream (.response none) = .error .unsupportedInput ∧
    compressT (.request none) output format sig = (.error .unsupportedInput, 0) ∧
    decompressT (.request none) output format sig = (.error .unsupportedInput, 0) ∧
    compressT (.response none) output format sig = (.error .unsupportedInput, 0) ∧
    decompressT (.response none) output format sig = (.error .unsupportedInput, 0) := by
  refine ⟨rfl, rfl, ?_, ?_, ?_, ?_⟩ <;> simp [compressT, decompressT, _transformT, toStream]

end Squish
